import Mathlib

/-!
Shallow embedding of `src/ldap_driver.c` from the bind-dyndb-ldap repository:
the read-only LDAP-backed `dns_db_t` implementation (store and node lifecycle,
the single-sentinel version model, the `findnode`/`find`/`findrdataset` lookup
entry points with CNAME fallback, the not-implemented stub surface, and
`ldapdb_create` with its unwind chain).

Modelling conventions:
- ISC/DNS result codes become the inductive `Result`.
- DNS names, pointers and opaque handles become `Nat` (the driver only copies
  and compares them); the null pointer is `nullPtr = 0`.
- The external resolver collaborator `ldapdb_rdatalist_get` (ldap_helper.c,
  outside this file) is an oracle: its outcome (result code plus the record
  list it left behind) is passed to the embedded functions as arguments.
- Fallible allocations (`isc_mem_get`, `dns_name_dup`, `isc_mutex_init`, ...)
  are parametrised by explicit success flags / result codes.
- A failing `REQUIRE`/`INSIST` assertion aborts the process; the embedding
  returns `Except.error msg` for that outcome, and `Except.ok` for every
  outcome in which the C function returns to its caller.
-/

set_option autoImplicit false
set_option linter.unusedVariables false

deriving instance DecidableEq for Except

namespace LdapDriver

/-- ISC and DNS result codes appearing in ldap_driver.c. -/
inductive Result where
  | ISC_R_SUCCESS
  | ISC_R_NOMEMORY
  | ISC_R_NOTFOUND
  | ISC_R_NOTIMPLEMENTED
  | ISC_R_UNEXPECTED
  | DNS_R_PARTIALMATCH
  | DNS_R_NXRRSET
  | DNS_R_CNAME
deriving DecidableEq

open Result

/-- The null pointer, for pointer-valued arguments modelled as `Nat`. -/
def nullPtr : Nat := 0

/-- The fixed process-wide version sentinel: `static void *ldapdb_version = &dummy`
is one fixed non-null address for the whole process. -/
def ldapdb_version : Nat := 1

/-- DNS record type numbers used by the driver. -/
def dns_rdatatype_a : Nat := 1

def dns_rdatatype_cname : Nat := 5

def dns_rdatatype_mx : Nat := 15

def dns_rdatatype_any : Nat := 255

/-- `dns_dbtype_zone` from the dns/db.h enumeration. -/
def dns_dbtype_zone : Nat := 1

/-- `dns_rdataclass_in`, the Internet class. -/
def dns_rdataclass_in : Nat := 1

/-- A `dns_rdatalist_t`: one record type, a TTL, and the raw record values of
that type for one owner name. -/
structure Rdatalist where
  rtype : Nat
  ttl : Nat
  rdata : List Nat
deriving DecidableEq

/-- An `ldapdbnode_t`: reference count, owner name, and the record-lists taken
over from the resolver query (the magic field is dropped: validity checking is
handled by the `Except` layer). -/
structure Ldapdbnode where
  refs : Nat
  owner : Nat
  rdatalist : List Rdatalist
deriving DecidableEq

/-- Modelled from the spec: `ldapdb_rdatalist_findrdatatype` is the resolver
collaborator's type search (declared in ldap_helper.h; its implementation is
not part of ldap_driver.c).  Per the spec it returns the record-list whose
type equals the requested type, or NotFound when none exists; the collection
holds at most one entry per type, so the first match is the entry. -/
def ldapdb_rdatalist_findrdatatype (rdatalist : List Rdatalist) (rtype : Nat) :
    Result × Option Rdatalist :=
  match rdatalist.find? (fun rdlist => rdlist.rtype == rtype) with
  | some rdlist => (ISC_R_SUCCESS, some rdlist)
  | none => (ISC_R_NOTFOUND, none)

/-- Outcome of `findnode` when it returns to the caller:
the returned result code, the node stored in `*nodep` (`none` when the slot is
left untouched), and whether the cleanup path destroyed the rdatalist taken
from the resolver. -/
structure FindnodeOut where
  result : Result
  nodep : Option Ldapdbnode
  rdatalistDestroyed : Bool
deriving DecidableEq

/-- `findnode` (ldap_driver.c lines 237-284).  The resolver call
`ldapdb_rdatalist_get` is an oracle: `get_result` is its result code and
`get_list` the record-lists it left behind.  `node_create_ok` says whether the
allocations inside `ldapdbnode_create` succeed.  The branch rewriting a
partial match to NotFound is kept although the INSIST right after the resolver
call makes it unreachable. -/
def findnode (get_result : Result) (get_list : List Rdatalist) (name : Nat)
    (create : Bool) (node_create_ok : Bool) : Except String FindnodeOut :=
  if get_result = DNS_R_PARTIALMATCH then
    Except.error "findnode: INSIST failed: result is DNS_R_PARTIALMATCH"
  else if get_result = ISC_R_NOMEMORY then
    Except.ok ⟨ISC_R_NOMEMORY, none, false⟩
  else if create = false ∧ get_result ≠ ISC_R_SUCCESS then
    if get_result = DNS_R_PARTIALMATCH then
      Except.ok ⟨ISC_R_NOTFOUND, none, true⟩
    else
      Except.ok ⟨get_result, none, false⟩
  else if node_create_ok = false then
    Except.ok ⟨ISC_R_NOMEMORY, none, true⟩
  else
    Except.ok ⟨ISC_R_SUCCESS, some ⟨1, name, get_list⟩, false⟩

/-- Outcome of `find` when it returns to the caller: result code, the node
stored in `*nodep` (`none` = slot untouched), the duplicated `foundname`, the
rdataset bound by `dns_rdatalist_tordataset` (`none` = untouched), and how
many nodes the call created and destroyed. -/
structure FindOut where
  result : Result
  nodep : Option Ldapdbnode
  foundname : Option Nat
  rdataset : Option Rdatalist
  nodesCreated : Nat
  nodesDestroyed : Nat
deriving DecidableEq

/-- `find` (ldap_driver.c lines 287-367).  Oracle arguments as in `findnode`;
`name_dup_ok` says whether `dns_name_dupwithoffsets` succeeds.  After the node
is built, the exact-type search runs first, then the explicit list walk
looking for a CNAME entry; `DNS_R_NXRRSET` with node release when neither
matched, `DNS_R_CNAME` instead of success when the CNAME walk matched. -/
def find (get_result : Result) (get_list : List Rdatalist) (name : Nat)
    (version : Nat) (rtype : Nat) (node_create_ok : Bool) (name_dup_ok : Bool) :
    Except String FindOut :=
  if rtype = dns_rdatatype_any then
    Except.error "find: INSIST failed: type is dns_rdatatype_any"
  else if version ≠ nullPtr ∧ version ≠ ldapdb_version then
    Except.error "find: REQUIRE failed: version is not ldapdb_version"
  else if get_result = DNS_R_PARTIALMATCH then
    Except.error "find: INSIST failed: result is DNS_R_PARTIALMATCH"
  else if get_result ≠ ISC_R_SUCCESS ∧ get_result ≠ DNS_R_PARTIALMATCH then
    Except.ok ⟨get_result, none, none, none, 0, 0⟩
  else if node_create_ok = false then
    Except.ok ⟨ISC_R_NOMEMORY, none, none, none, 0, 0⟩
  else
    let node : Ldapdbnode := ⟨1, name, get_list⟩
    let exact := ldapdb_rdatalist_findrdatatype node.rdatalist rtype
    let selected : Result × Bool × Option Rdatalist :=
      if exact.1 ≠ ISC_R_SUCCESS then
        match node.rdatalist.find? (fun rdlist => rdlist.rtype == dns_rdatatype_cname) with
        | some rdlist => (ISC_R_SUCCESS, true, some rdlist)
        | none => (exact.1, false, none)
      else
        (ISC_R_SUCCESS, false, exact.2)
    if selected.1 ≠ ISC_R_SUCCESS then
      Except.ok ⟨DNS_R_NXRRSET, none, none, none, 1, 1⟩
    else if name_dup_ok = false then
      Except.ok ⟨ISC_R_NOMEMORY, none, none, selected.2.2, 1, 1⟩
    else
      Except.ok ⟨if selected.2.1 then DNS_R_CNAME else ISC_R_SUCCESS,
                 some node, some name, selected.2.2, 1, 0⟩

/-- `findrdataset` (ldap_driver.c lines 452-479): exact-type search on the
node's record-lists, no CNAME fallback; the pair is the returned result code
and the rdataset bound for the caller (`none` = untouched). -/
def findrdataset (node : Ldapdbnode) (version : Nat) (rtype : Nat)
    (covers : Nat) : Except String (Result × Option Rdatalist) :=
  if covers ≠ 0 then
    Except.error "findrdataset: REQUIRE failed: covers is not 0"
  else if version ≠ nullPtr ∧ version ≠ ldapdb_version then
    Except.error "findrdataset: REQUIRE failed: version is not ldapdb_version"
  else
    let found := ldapdb_rdatalist_findrdatatype node.rdatalist rtype
    if found.1 ≠ ISC_R_SUCCESS then
      Except.ok (found.1, none)
    else
      Except.ok (ISC_R_SUCCESS, found.2)

/-- `currentversion` (lines 184-193): requires an empty caller slot and stores
the fixed sentinel in it.  The result is the new content of `*versionp`. -/
def currentversion (versionp : Option Nat) : Except String Nat :=
  if versionp ≠ none then
    Except.error "currentversion: REQUIRE failed: versionp slot is not empty"
  else
    Except.ok ldapdb_version

/-- `newversion` (lines 195-205): identical to `currentversion` except that it
also returns a result code. -/
def newversion (versionp : Option Nat) : Except String (Result × Nat) :=
  if versionp ≠ none then
    Except.error "newversion: REQUIRE failed: versionp slot is not empty"
  else
    Except.ok (Result.ISC_R_SUCCESS, ldapdb_version)

/-- `attachversion` (lines 207-218): requires the source token equal the
sentinel and an empty target slot; stores the sentinel in the target. -/
def attachversion (source : Nat) (targetp : Option Nat) : Except String Nat :=
  if source ≠ ldapdb_version then
    Except.error "attachversion: REQUIRE failed: source is not ldapdb_version"
  else if targetp ≠ none then
    Except.error "attachversion: REQUIRE failed: targetp slot is not empty"
  else
    Except.ok ldapdb_version

/-- `closeversion` (lines 220-231): the commit flag is unused; requires the
slot hold the sentinel and clears it (result is the new slot content). -/
def closeversion (versionp : Option Nat) (commit : Bool) :
    Except String (Option Nat) :=
  if versionp ≠ some ldapdb_version then
    Except.error "closeversion: REQUIRE failed: versionp is not ldapdb_version"
  else
    Except.ok none

/-!
The statically unsupported operation surface (lines 369-384, 423-431,
441-450, 481-639, 649-655): each function ignores every argument and returns
`ISC_R_NOTIMPLEMENTED`.  In the C source, `issecure`, `ispersistent` and
`isdnssec` return the code through an `isc_boolean_t` return type and
`nodecount` through `unsigned int`; the value returned is still the
`ISC_R_NOTIMPLEMENTED` code, which is what the embedding records.  Arguments
are opaque `Nat` handles.
-/

def findzonecut (db : Nat) (name : Nat) (options : Nat) (now : Nat) : Result :=
  Result.ISC_R_NOTIMPLEMENTED

def expirenode (db : Nat) (node : Nat) (now : Nat) : Result :=
  Result.ISC_R_NOTIMPLEMENTED

def createiterator (db : Nat) (options : Nat) : Result :=
  Result.ISC_R_NOTIMPLEMENTED

def allrdatasets (db : Nat) (node : Nat) (version : Nat) (now : Nat) : Result :=
  Result.ISC_R_NOTIMPLEMENTED

def addrdataset (db : Nat) (node : Nat) (version : Nat) (now : Nat)
    (rdataset : Nat) (options : Nat) : Result :=
  Result.ISC_R_NOTIMPLEMENTED

def subtractrdataset (db : Nat) (node : Nat) (version : Nat) (rdataset : Nat)
    (options : Nat) : Result :=
  Result.ISC_R_NOTIMPLEMENTED

def deleterdataset (db : Nat) (node : Nat) (version : Nat) (rtype : Nat)
    (covers : Nat) : Result :=
  Result.ISC_R_NOTIMPLEMENTED

def issecure (db : Nat) : Result :=
  Result.ISC_R_NOTIMPLEMENTED

def nodecount (db : Nat) : Result :=
  Result.ISC_R_NOTIMPLEMENTED

def ispersistent (db : Nat) : Result :=
  Result.ISC_R_NOTIMPLEMENTED

def isdnssec (db : Nat) : Result :=
  Result.ISC_R_NOTIMPLEMENTED

def getoriginnode (db : Nat) (nodep : Nat) : Result :=
  Result.ISC_R_NOTIMPLEMENTED

def getnsec3parameters (db : Nat) (version : Nat) : Result :=
  Result.ISC_R_NOTIMPLEMENTED

def findnsec3node (db : Nat) (name : Nat) (create : Bool) (nodep : Nat) :
    Result :=
  Result.ISC_R_NOTIMPLEMENTED

def setsigningtime (db : Nat) (rdataset : Nat) (resign : Nat) : Result :=
  Result.ISC_R_NOTIMPLEMENTED

def getsigningtime (db : Nat) (rdataset : Nat) (name : Nat) : Result :=
  Result.ISC_R_NOTIMPLEMENTED

/-!
`ldapdb_create` (lines 704-765) and its cleanup-label chain.  The resources
the constructor acquires are modelled as an event trace so that the unwind
order can be compared with the acquisition order.
-/

/-- Resources acquired by `ldapdb_create`: the store's memory block
(`isc_mem_get`), the duplicated origin name (`dns_name_dupwithoffsets`), and
the mutex (`isc_mutex_init`). -/
inductive CreateRes where
  | memblock
  | origin
  | lockres
deriving DecidableEq

/-- An acquisition or release event in the `ldapdb_create` trace. -/
inductive CreateEvent where
  | acquire (r : CreateRes)
  | release (r : CreateRes)
deriving DecidableEq

/-- Cleanup label `clean_ldapdb`: `isc_mem_putanddetach` frees the store's
memory block.  This trace describes the label's behavior on the paths that
reach it after `common.mctx` has been attached (mutex-init, refcount-init and
manager failures); on the name-dup failure path the label is reached with
`common.mctx` uninitialized and aborts instead (see `ldapdb_create`). -/
def clean_ldapdb_events : List CreateEvent := [CreateEvent.release CreateRes.memblock]

/-- Cleanup label `clean_origin`: `dns_name_free` on the origin, then falls
through to `clean_ldapdb`. -/
def clean_origin_events : List CreateEvent :=
  CreateEvent.release CreateRes.origin :: clean_ldapdb_events

/-- Cleanup label `clean_lock`: `DESTROYLOCK`, then falls through to
`clean_origin`. -/
def clean_lock_events : List CreateEvent :=
  CreateEvent.release CreateRes.lockres :: clean_origin_events

/-- An `ldapdb_t`: reference count, origin name, resolver handle (the lock
and the fixed method table carry no state relevant here). -/
structure Ldapdb where
  refs : Nat
  origin : Nat
  ldap_db : Nat
deriving DecidableEq

/-- Outcome of `ldapdb_create` when it returns: result code, the store placed
in `*dbp` (`none` = caller slot untouched), and the acquire/release trace. -/
structure CreateOut where
  result : Result
  dbp : Option Ldapdb
  events : List CreateEvent
deriving DecidableEq

/-- `ldapdb_create` (lines 704-765).  Fallible steps are parametrised:
`mem_get_ok` for `isc_mem_get`, then the result codes of
`dns_name_dupwithoffsets`, `isc_mutex_init`, `isc_refcount_init` and
`manager_get_ldap_db`; `ldap_db_handle` is the resolver handle the manager
would bind on success.  On the `dns_name_dupwithoffsets` failure path the
source jumps to `clean_ldapdb` (line 762) before `ldapdb->common.mctx` has
been set and attached (that happens only at lines 735-736, after the dup), so
`isc_mem_putanddetach` there dereferences an uninitialized memory-context
pointer: a fatal REQUIRE / undefined behavior, not a clean release; the
embedding records that path as an abort. -/
def ldapdb_create (name : Nat) (dbtype : Nat) (rdclass : Nat) (argc : Nat)
    (dbp_empty : Bool) (mem_get_ok : Bool)
    (name_dup_result : Result) (mutex_init_result : Result)
    (refcount_init_result : Result) (manager_result : Result)
    (ldap_db_handle : Nat) : Except String CreateOut :=
  if argc = 0 then
    Except.error "ldapdb_create: REQUIRE failed: argc > 0"
  else if dbtype ≠ dns_dbtype_zone then
    Except.error "ldapdb_create: REQUIRE failed: type is dns_dbtype_zone"
  else if rdclass ≠ dns_rdataclass_in then
    Except.error "ldapdb_create: REQUIRE failed: rdclass is dns_rdataclass_in"
  else if dbp_empty = false then
    Except.error "ldapdb_create: REQUIRE failed: dbp is an empty slot"
  else if mem_get_ok = false then
    Except.ok ⟨Result.ISC_R_NOMEMORY, none, []⟩
  else if name_dup_result ≠ Result.ISC_R_SUCCESS then
    Except.error "ldapdb_create: clean_ldapdb reached with common.mctx uninitialized: isc_mem_putanddetach is a fatal REQUIRE / undefined behavior"
  else if mutex_init_result ≠ Result.ISC_R_SUCCESS then
    Except.ok ⟨mutex_init_result, none,
               [CreateEvent.acquire CreateRes.memblock,
                CreateEvent.acquire CreateRes.origin] ++ clean_origin_events⟩
  else if refcount_init_result ≠ Result.ISC_R_SUCCESS then
    Except.ok ⟨refcount_init_result, none,
               [CreateEvent.acquire CreateRes.memblock,
                CreateEvent.acquire CreateRes.origin,
                CreateEvent.acquire CreateRes.lockres] ++ clean_lock_events⟩
  else if manager_result ≠ Result.ISC_R_SUCCESS then
    Except.ok ⟨manager_result, none,
               [CreateEvent.acquire CreateRes.memblock,
                CreateEvent.acquire CreateRes.origin,
                CreateEvent.acquire CreateRes.lockres] ++ clean_lock_events⟩
  else
    Except.ok ⟨Result.ISC_R_SUCCESS, some ⟨1, name, ldap_db_handle⟩,
               [CreateEvent.acquire CreateRes.memblock,
                CreateEvent.acquire CreateRes.origin,
                CreateEvent.acquire CreateRes.lockres]⟩

/-- The resources acquired along a trace, in acquisition order. -/
def acquiredOf (events : List CreateEvent) : List CreateRes :=
  events.filterMap (fun e => match e with
    | CreateEvent.acquire r => some r
    | CreateEvent.release _ => none)

/-- The resources released along a trace, in release order. -/
def releasedOf (events : List CreateEvent) : List CreateRes :=
  events.filterMap (fun e => match e with
    | CreateEvent.acquire _ => none
    | CreateEvent.release r => some r)

/-!
Reference counting (`attach`/`detach`, lines 106-139, and
`attachnode`/`detachnode`, lines 386-421).  Both pairs share the same
dynamics: `isc_refcount_increment` on attach; `isc_refcount_decrement` on
detach, running the destruction routine (`free_ldapdb`, resp. the node
teardown) exactly when the decremented count is zero.  The state records the
current reference count and how many times destruction has run.
-/

/-- Reference-count state of a store or node: the current count and the
number of times its destruction routine has run. -/
structure RefState where
  refs : Nat
  destroyCount : Nat
deriving DecidableEq

/-- One attach or detach call. -/
inductive RefOp where
  | attachOp
  | detachOp
deriving DecidableEq

/-- `attach`/`attachnode`: increment; `detach`/`detachnode`: decrement and
destroy when the count reaches zero. -/
def applyRefOp (s : RefState) : RefOp → RefState
  | RefOp.attachOp => ⟨s.refs + 1, s.destroyCount⟩
  | RefOp.detachOp =>
      let r := s.refs - 1
      ⟨r, if r = 0 then s.destroyCount + 1 else s.destroyCount⟩

/-- Run a sequence of attach/detach calls from a given state. -/
def runRefOps (s : RefState) (ops : List RefOp) : RefState :=
  ops.foldl applyRefOp s

/-- Number of attach calls in a sequence. -/
def countAttach (ops : List RefOp) : Nat := ops.count RefOp.attachOp

/-- Number of detach calls in a sequence. -/
def countDetach (ops : List RefOp) : Nat := ops.count RefOp.detachOp

/-!
Theorems for the claims.
-/

/-- Claim C7: for every store, `currentversion` and `newversion` both produce
the same fixed process-wide sentinel `ldapdb_version` and never allocate a
fresh version; `attachversion` given the sentinel returns the sentinel again;
and `closeversion` given the sentinel clears the caller's handle regardless of
the commit flag. -/
theorem version_ops_use_single_sentinel :
    currentversion none = Except.ok ldapdb_version ∧
    newversion none = Except.ok (Result.ISC_R_SUCCESS, ldapdb_version) ∧
    attachversion ldapdb_version none = Except.ok ldapdb_version ∧
    (∀ commit : Bool,
      closeversion (some ldapdb_version) commit = Except.ok none) := by
  refine ⟨rfl, rfl, rfl, ?_⟩
  intro commit
  rfl

/-- Claim C8: every operation of the mandatory table documented as not
implemented returns the stable `ISC_R_NOTIMPLEMENTED` code on every call, for
every input; the embedded operations are pure functions of their arguments,
so they allocate nothing and mutate no state. -/
theorem notimplemented_surface_stable :
    (∀ db name options now, findzonecut db name options now = Result.ISC_R_NOTIMPLEMENTED) ∧
    (∀ db node now, expirenode db node now = Result.ISC_R_NOTIMPLEMENTED) ∧
    (∀ db options, createiterator db options = Result.ISC_R_NOTIMPLEMENTED) ∧
    (∀ db node version now, allrdatasets db node version now = Result.ISC_R_NOTIMPLEMENTED) ∧
    (∀ db node version now rdataset options,
      addrdataset db node version now rdataset options = Result.ISC_R_NOTIMPLEMENTED) ∧
    (∀ db node version rdataset options,
      subtractrdataset db node version rdataset options = Result.ISC_R_NOTIMPLEMENTED) ∧
    (∀ db node version rtype covers,
      deleterdataset db node version rtype covers = Result.ISC_R_NOTIMPLEMENTED) ∧
    (∀ db, issecure db = Result.ISC_R_NOTIMPLEMENTED) ∧
    (∀ db, nodecount db = Result.ISC_R_NOTIMPLEMENTED) ∧
    (∀ db, ispersistent db = Result.ISC_R_NOTIMPLEMENTED) ∧
    (∀ db, isdnssec db = Result.ISC_R_NOTIMPLEMENTED) ∧
    (∀ db nodep, getoriginnode db nodep = Result.ISC_R_NOTIMPLEMENTED) ∧
    (∀ db version, getnsec3parameters db version = Result.ISC_R_NOTIMPLEMENTED) ∧
    (∀ db name create nodep, findnsec3node db name create nodep = Result.ISC_R_NOTIMPLEMENTED) ∧
    (∀ db rdataset resign, setsigningtime db rdataset resign = Result.ISC_R_NOTIMPLEMENTED) ∧
    (∀ db rdataset name, getsigningtime db rdataset name = Result.ISC_R_NOTIMPLEMENTED) :=
  ⟨fun _ _ _ _ => rfl, fun _ _ _ => rfl, fun _ _ => rfl, fun _ _ _ _ => rfl,
   fun _ _ _ _ _ _ => rfl, fun _ _ _ _ _ => rfl, fun _ _ _ _ _ => rfl,
   fun _ => rfl, fun _ => rfl, fun _ => rfl, fun _ => rfl, fun _ _ => rfl,
   fun _ _ => rfl, fun _ _ _ _ => rfl, fun _ _ _ => rfl, fun _ _ _ => rfl⟩

/-- Claim C3 counterexample: with create = false and the resolver reporting a
partial match, `findnode` does not fail with NotFound leaving the slot empty;
it hits the INSIST assertion right after the resolver call and aborts, so the
claimed NotFound return does not happen. -/
theorem findnode_partialmatch_counterexample :
    findnode Result.DNS_R_PARTIALMATCH [] 7 false true
      = Except.error "findnode: INSIST failed: result is DNS_R_PARTIALMATCH" ∧
    findnode Result.DNS_R_PARTIALMATCH [] 7 false true
      ≠ Except.ok ⟨Result.ISC_R_NOTFOUND, none, true⟩ ∧
    findnode Result.DNS_R_PARTIALMATCH [] 7 false true
      ≠ Except.ok ⟨Result.ISC_R_NOTFOUND, none, false⟩ := by
  refine ⟨rfl, ?_, ?_⟩ <;> decide

/-- Claim C3 amended: for every call to `findnode` with create = false, a
partial-match report from the resolver triggers the fatal INSIST assertion
placed directly after the resolver call, aborting the process; the branch
that would rewrite the partial match to NotFound is unreachable dead code. -/
theorem findnode_partialmatch_fatal (get_list : List Rdatalist) (name : Nat)
    (node_create_ok : Bool) :
    findnode Result.DNS_R_PARTIALMATCH get_list name false node_create_ok
      = Except.error "findnode: INSIST failed: result is DNS_R_PARTIALMATCH" := by
  simp [findnode]

/-- Claim C4 counterexample: `find` does not accept a partial-match outcome
and handle it like a full match; on the same record-lists the full-match call
succeeds while the partial-match call hits the INSIST assertion and aborts. -/
theorem find_partialmatch_counterexample :
    find Result.DNS_R_PARTIALMATCH [⟨dns_rdatatype_a, 300, [1]⟩] 7 nullPtr
        dns_rdatatype_a true true
      = Except.error "find: INSIST failed: result is DNS_R_PARTIALMATCH" ∧
    find Result.DNS_R_PARTIALMATCH [⟨dns_rdatatype_a, 300, [1]⟩] 7 nullPtr
        dns_rdatatype_a true true
      ≠ find Result.ISC_R_SUCCESS [⟨dns_rdatatype_a, 300, [1]⟩] 7 nullPtr
        dns_rdatatype_a true true := by
  constructor
  · rfl
  · decide

/-- Claim C4 amended: for every call to `find` that passes the entry
preconditions (type is not the wildcard, version is null or the sentinel), a
partial-match report from the resolver triggers the fatal INSIST assertion
and aborts the process; the branch accepting partial match like a full match
is unreachable dead code. -/
theorem find_partialmatch_fatal (get_list : List Rdatalist) (name : Nat)
    (version : Nat) (rtype : Nat) (node_create_ok : Bool) (name_dup_ok : Bool)
    (ht : rtype ≠ dns_rdatatype_any)
    (hv : version = nullPtr ∨ version = ldapdb_version) :
    find Result.DNS_R_PARTIALMATCH get_list name version rtype node_create_ok
        name_dup_ok
      = Except.error "find: INSIST failed: result is DNS_R_PARTIALMATCH" := by
  have hv2 : ¬(version ≠ nullPtr ∧ version ≠ ldapdb_version) := by
    rcases hv with h | h <;> simp [h]
  simp [find, ht, hv2]

/-- Claim C4 amended witness at a concrete input. -/
theorem find_partialmatch_fatal_witness :
    find Result.DNS_R_PARTIALMATCH [] 7 nullPtr dns_rdatatype_a true true
      = Except.error "find: INSIST failed: result is DNS_R_PARTIALMATCH" :=
  find_partialmatch_fatal [] 7 nullPtr dns_rdatatype_a true true
    (by decide) (Or.inl rfl)

/-- Claim C9 counterexample: with create = true, a partial-match resolver
outcome is not handled by constructing a fresh node and reporting success; it
triggers the fatal INSIST assertion and the call never returns. -/
theorem findnode_create_partialmatch_counterexample :
    findnode Result.DNS_R_PARTIALMATCH [] 7 true true
      = Except.error "findnode: INSIST failed: result is DNS_R_PARTIALMATCH" ∧
    findnode Result.DNS_R_PARTIALMATCH [] 7 true true
      ≠ Except.ok ⟨Result.ISC_R_SUCCESS, some ⟨1, 7, []⟩, false⟩ := by
  constructor
  · rfl
  · decide

/-- Claim C9 amended: for every call to `findnode` with create = true, any
resolver outcome other than out-of-memory and partial match — including
not-found — is not propagated as an error: `findnode` builds a fresh node from
the record-list state the resolver left behind and reports success.  An
out-of-memory resolver outcome is propagated unchanged, a node-allocation
failure returns out-of-memory after destroying the record-lists, and a
partial-match outcome triggers the fatal INSIST assertion. -/
theorem findnode_create_accepts_nonfatal (get_result : Result)
    (get_list : List Rdatalist) (name : Nat)
    (hmem : get_result ≠ Result.ISC_R_NOMEMORY)
    (hpart : get_result ≠ Result.DNS_R_PARTIALMATCH) :
    findnode get_result get_list name true true
      = Except.ok ⟨Result.ISC_R_SUCCESS, some ⟨1, name, get_list⟩, false⟩ ∧
    (∀ node_create_ok, findnode Result.ISC_R_NOMEMORY get_list name true node_create_ok
      = Except.ok ⟨Result.ISC_R_NOMEMORY, none, false⟩) ∧
    findnode get_result get_list name true false
      = Except.ok ⟨Result.ISC_R_NOMEMORY, none, true⟩ := by
  refine ⟨?_, ?_, ?_⟩
  · simp [findnode, hmem, hpart]
  · intro node_create_ok
    simp [findnode]
  · simp [findnode, hmem, hpart]

/-- Claim C9 amended witness: a not-found resolver outcome with create = true
still produces a fresh node and success. -/
theorem findnode_create_accepts_nonfatal_witness :
    findnode Result.ISC_R_NOTFOUND [] 7 true true
      = Except.ok ⟨Result.ISC_R_SUCCESS, some ⟨1, 7, []⟩, false⟩ ∧
    (∀ node_create_ok, findnode Result.ISC_R_NOMEMORY [] 7 true node_create_ok
      = Except.ok ⟨Result.ISC_R_NOMEMORY, none, false⟩) ∧
    findnode Result.ISC_R_NOTFOUND [] 7 true false
      = Except.ok ⟨Result.ISC_R_NOMEMORY, none, true⟩ :=
  findnode_create_accepts_nonfatal Result.ISC_R_NOTFOUND [] 7
    (by decide) (by decide)

/-- Evaluation of `find` on a successful resolver outcome with both
allocations succeeding, as a function of the two list searches. -/
theorem find_success_eval (get_list : List Rdatalist) (name : Nat)
    (version : Nat) (rtype : Nat)
    (ht : rtype ≠ dns_rdatatype_any)
    (hv : version = nullPtr ∨ version = ldapdb_version) :
    find Result.ISC_R_SUCCESS get_list name version rtype true true
      = match get_list.find? (fun rdlist => rdlist.rtype == rtype) with
        | some rdlist =>
            Except.ok ⟨Result.ISC_R_SUCCESS, some ⟨1, name, get_list⟩,
                       some name, some rdlist, 1, 0⟩
        | none =>
            match get_list.find? (fun rdlist => rdlist.rtype == dns_rdatatype_cname) with
            | some rdlist =>
                Except.ok ⟨Result.DNS_R_CNAME, some ⟨1, name, get_list⟩,
                           some name, some rdlist, 1, 0⟩
            | none =>
                Except.ok ⟨Result.DNS_R_NXRRSET, none, none, none, 1, 1⟩ := by
  have hv2 : ¬(version ≠ nullPtr ∧ version ≠ ldapdb_version) := by
    rcases hv with h | h <;> simp [h]
  cases h1 : get_list.find? (fun rdlist => rdlist.rtype == rtype) with
  | some rdlist =>
      simp [find, ldapdb_rdatalist_findrdatatype, ht, hv2, h1]
  | none =>
      cases h2 : get_list.find? (fun rdlist => rdlist.rtype == dns_rdatatype_cname) with
      | some rdlist =>
          simp [find, ldapdb_rdatalist_findrdatatype, ht, hv2, h1, h2]
      | none =>
          simp [find, ldapdb_rdatalist_findrdatatype, ht, hv2, h1, h2]

/-- Claim C1: for every `find` call on a name whose record-lists contain an
entry of the requested type, that entry is selected and `find` returns plain
success; only when no exact-type entry exists does `find` search the
record-lists for a CNAME entry, and when the CNAME entry wins it returns
`DNS_R_CNAME` instead of plain success.  The first part holds whether or not
a CNAME entry is also present, so when both are, the exact-type entry wins. -/
theorem find_exact_type_beats_cname (get_list : List Rdatalist) (name : Nat)
    (version : Nat) (rtype : Nat)
    (ht : rtype ≠ dns_rdatatype_any)
    (hv : version = nullPtr ∨ version = ldapdb_version) :
    ((∃ e ∈ get_list, e.rtype = rtype) →
      ∃ rdlist, rdlist.rtype = rtype ∧
        find Result.ISC_R_SUCCESS get_list name version rtype true true
          = Except.ok ⟨Result.ISC_R_SUCCESS, some ⟨1, name, get_list⟩,
                       some name, some rdlist, 1, 0⟩) ∧
    ((¬ ∃ e ∈ get_list, e.rtype = rtype) →
      (∃ e ∈ get_list, e.rtype = dns_rdatatype_cname) →
      ∃ rdlist, rdlist.rtype = dns_rdatatype_cname ∧
        find Result.ISC_R_SUCCESS get_list name version rtype true true
          = Except.ok ⟨Result.DNS_R_CNAME, some ⟨1, name, get_list⟩,
                       some name, some rdlist, 1, 0⟩) := by
  constructor
  · intro hex
    have hs : (get_list.find? (fun rdlist => rdlist.rtype == rtype)).isSome := by
      refine List.find?_isSome.mpr ?_
      obtain ⟨e, he, het⟩ := hex
      exact ⟨e, he, by simp [het]⟩
    obtain ⟨rdlist, hrd⟩ := Option.isSome_iff_exists.mp hs
    refine ⟨rdlist, ?_, ?_⟩
    · have := List.find?_some hrd
      simpa using this
    · rw [find_success_eval get_list name version rtype ht hv, hrd]
  · intro hnone hcname
    have h1 : get_list.find? (fun rdlist => rdlist.rtype == rtype) = none := by
      refine List.find?_eq_none.mpr ?_
      intro e he
      simp only [beq_iff_eq]
      intro het
      exact hnone ⟨e, he, het⟩
    have hs : (get_list.find? (fun rdlist => rdlist.rtype == dns_rdatatype_cname)).isSome := by
      refine List.find?_isSome.mpr ?_
      obtain ⟨e, he, het⟩ := hcname
      exact ⟨e, he, by simp [het]⟩
    obtain ⟨rdlist, hrd⟩ := Option.isSome_iff_exists.mp hs
    refine ⟨rdlist, ?_, ?_⟩
    · have := List.find?_some hrd
      simpa using this
    · rw [find_success_eval get_list name version rtype ht hv, h1, hrd]

/-- Claim C1 witness: a record-list set holding both an A entry and a CNAME
entry; the A query selects the A entry with plain success, and on a set with
only the CNAME entry an A query redirects with `DNS_R_CNAME`. -/
theorem find_exact_type_beats_cname_witness :
    (∃ rdlist, rdlist.rtype = dns_rdatatype_a ∧
      find Result.ISC_R_SUCCESS
          [⟨dns_rdatatype_a, 300, [1]⟩, ⟨dns_rdatatype_cname, 300, [2]⟩] 7
          nullPtr dns_rdatatype_a true true
        = Except.ok ⟨Result.ISC_R_SUCCESS,
            some ⟨1, 7, [⟨dns_rdatatype_a, 300, [1]⟩, ⟨dns_rdatatype_cname, 300, [2]⟩]⟩,
            some 7, some rdlist, 1, 0⟩) ∧
    (∃ rdlist, rdlist.rtype = dns_rdatatype_cname ∧
      find Result.ISC_R_SUCCESS [⟨dns_rdatatype_cname, 300, [2]⟩] 7
          nullPtr dns_rdatatype_a true true
        = Except.ok ⟨Result.DNS_R_CNAME,
            some ⟨1, 7, [⟨dns_rdatatype_cname, 300, [2]⟩]⟩,
            some 7, some rdlist, 1, 0⟩) := by
  constructor
  · exact (find_exact_type_beats_cname
        [⟨dns_rdatatype_a, 300, [1]⟩, ⟨dns_rdatatype_cname, 300, [2]⟩] 7
        nullPtr dns_rdatatype_a (by decide) (Or.inl rfl)).1
      ⟨⟨dns_rdatatype_a, 300, [1]⟩, by simp, rfl⟩
  · exact (find_exact_type_beats_cname [⟨dns_rdatatype_cname, 300, [2]⟩] 7
        nullPtr dns_rdatatype_a (by decide) (Or.inl rfl)).2
      (by decide) ⟨⟨dns_rdatatype_cname, 300, [2]⟩, by simp, rfl⟩

/-- Claim C2: for every `find` call on a name that has record-lists but no
entry of the requested type and no CNAME entry, `find` fails with
`DNS_R_NXRRSET` (not the name-not-found code `ISC_R_NOTFOUND`), and it
destroys the node it constructed (one created, one destroyed) leaving the
caller's node slot untouched. -/
theorem find_no_match_nxrrset (get_list : List Rdatalist) (name : Nat)
    (version : Nat) (rtype : Nat)
    (ht : rtype ≠ dns_rdatatype_any)
    (hv : version = nullPtr ∨ version = ldapdb_version)
    (hnot : ∀ e ∈ get_list, e.rtype ≠ rtype)
    (hnoc : ∀ e ∈ get_list, e.rtype ≠ dns_rdatatype_cname) :
    find Result.ISC_R_SUCCESS get_list name version rtype true true
      = Except.ok ⟨Result.DNS_R_NXRRSET, none, none, none, 1, 1⟩ ∧
    Result.DNS_R_NXRRSET ≠ Result.ISC_R_NOTFOUND := by
  have h1 : get_list.find? (fun rdlist => rdlist.rtype == rtype) = none := by
    refine List.find?_eq_none.mpr ?_
    intro e he
    simpa using hnot e he
  have h2 : get_list.find? (fun rdlist => rdlist.rtype == dns_rdatatype_cname) = none := by
    refine List.find?_eq_none.mpr ?_
    intro e he
    simpa using hnoc e he
  refine ⟨?_, by decide⟩
  rw [find_success_eval get_list name version rtype ht hv, h1, h2]

/-- Claim C2 witness: a name holding only an MX record-list, queried for A:
no-such-record-set, node slot untouched, node created and destroyed. -/
theorem find_no_match_nxrrset_witness :
    find Result.ISC_R_SUCCESS [⟨dns_rdatatype_mx, 300, [2]⟩] 7 nullPtr
        dns_rdatatype_a true true
      = Except.ok ⟨Result.DNS_R_NXRRSET, none, none, none, 1, 1⟩ ∧
    Result.DNS_R_NXRRSET ≠ Result.ISC_R_NOTFOUND :=
  find_no_match_nxrrset [⟨dns_rdatatype_mx, 300, [2]⟩] 7 nullPtr
    dns_rdatatype_a (by decide) (Or.inl rfl) (by decide) (by decide)

/-- Claim C10: for every node and requested type, with covers = 0 and version
null or the sentinel, `findrdataset` succeeds exactly when the node's
record-lists contain an entry of the requested type, binding that entry;
otherwise — with no CNAME fallback of any kind — it returns the type-search
failure code `ISC_R_NOTFOUND` and leaves the caller's result set untouched. -/
theorem findrdataset_exact_only (node : Ldapdbnode) (version : Nat)
    (rtype : Nat)
    (hv : version = nullPtr ∨ version = ldapdb_version) :
    ((∃ e ∈ node.rdatalist, e.rtype = rtype) →
      ∃ rdlist, rdlist.rtype = rtype ∧
        findrdataset node version rtype 0
          = Except.ok (Result.ISC_R_SUCCESS, some rdlist)) ∧
    ((¬ ∃ e ∈ node.rdatalist, e.rtype = rtype) →
      findrdataset node version rtype 0
        = Except.ok (Result.ISC_R_NOTFOUND, none)) := by
  have hv2 : ¬(version ≠ nullPtr ∧ version ≠ ldapdb_version) := by
    rcases hv with h | h <;> simp [h]
  constructor
  · intro hex
    have hs : (node.rdatalist.find? (fun rdlist => rdlist.rtype == rtype)).isSome := by
      refine List.find?_isSome.mpr ?_
      obtain ⟨e, he, het⟩ := hex
      exact ⟨e, he, by simp [het]⟩
    obtain ⟨rdlist, hrd⟩ := Option.isSome_iff_exists.mp hs
    refine ⟨rdlist, by simpa using List.find?_some hrd, ?_⟩
    rw [findrdataset, if_neg (by decide), if_neg hv2,
       ldapdb_rdatalist_findrdatatype, hrd]
    simp
  · intro hnone
    have h1 : node.rdatalist.find? (fun rdlist => rdlist.rtype == rtype) = none := by
      refine List.find?_eq_none.mpr ?_
      intro e he
      simp only [beq_iff_eq]
      intro het
      exact hnone ⟨e, he, het⟩
    rw [findrdataset, if_neg (by decide), if_neg hv2,
       ldapdb_rdatalist_findrdatatype, h1]
    simp

/-- Claim C10 witness: a node holding a CNAME record-list only; an A query
fails with NotFound (no CNAME fallback), a CNAME query succeeds. -/
theorem findrdataset_exact_only_witness :
    findrdataset ⟨1, 7, [⟨dns_rdatatype_cname, 300, [2]⟩]⟩ nullPtr
        dns_rdatatype_a 0
      = Except.ok (Result.ISC_R_NOTFOUND, none) ∧
    (∃ rdlist, rdlist.rtype = dns_rdatatype_cname ∧
      findrdataset ⟨1, 7, [⟨dns_rdatatype_cname, 300, [2]⟩]⟩ nullPtr
          dns_rdatatype_cname 0
        = Except.ok (Result.ISC_R_SUCCESS, some rdlist)) := by
  constructor
  · exact (findrdataset_exact_only ⟨1, 7, [⟨dns_rdatatype_cname, 300, [2]⟩]⟩
      nullPtr dns_rdatatype_a (Or.inl rfl)).2 (by decide)
  · exact (findrdataset_exact_only ⟨1, 7, [⟨dns_rdatatype_cname, 300, [2]⟩]⟩
      nullPtr dns_rdatatype_cname (Or.inl rfl)).1
      ⟨⟨dns_rdatatype_cname, 300, [2]⟩, by simp, rfl⟩

/-- Claim C5: evaluation of `ldapdb_create` at the failing input.  With valid
REQUIRE arguments, a successful `isc_mem_get` and a failing
`dns_name_dupwithoffsets`, the call does not return the failure code after a
clean reverse-order unwind as the claim states: the `goto clean_ldapdb`
reaches `isc_mem_putanddetach` through `ldapdb->common.mctx`, which is set
and attached only after the dup succeeds, so the cleanup itself is a fatal
REQUIRE / undefined behavior and the clean memblock release never happens. -/
theorem ldapdb_create_namedup_mctx_bug :
    ldapdb_create 7 dns_dbtype_zone dns_rdataclass_in 1 true true
        Result.ISC_R_NOMEMORY Result.ISC_R_SUCCESS Result.ISC_R_SUCCESS
        Result.ISC_R_SUCCESS 3
      = Except.error "ldapdb_create: clean_ldapdb reached with common.mctx uninitialized: isc_mem_putanddetach is a fatal REQUIRE / undefined behavior" ∧
    ldapdb_create 7 dns_dbtype_zone dns_rdataclass_in 1 true true
        Result.ISC_R_NOMEMORY Result.ISC_R_SUCCESS Result.ISC_R_SUCCESS
        Result.ISC_R_SUCCESS 3
      ≠ Except.ok ⟨Result.ISC_R_NOMEMORY, none,
          CreateEvent.acquire CreateRes.memblock :: clean_ldapdb_events⟩ := by
  constructor
  · rfl
  · decide

/-- Supporting theorem (not itself a claim): on the failure paths that do not
hit the uninitialized-mctx cleanup — `isc_mem_get` failing before anything is
acquired, or a mutex-init, refcount-init or manager failure occurring after
the origin dup and the mctx attach — `ldapdb_create` does return the failing
step's code, leaves the caller's slot untouched, and its trace releases
exactly the acquired resources in reverse acquisition order. -/
theorem ldapdb_create_post_attach_failures_unwind (name : Nat) (dbtype : Nat)
    (rdclass : Nat) (argc : Nat) (mem_get_ok : Bool)
    (mutex_init_result refcount_init_result manager_result : Result)
    (ldap_db_handle : Nat)
    (hargc : argc ≠ 0) (htype : dbtype = dns_dbtype_zone)
    (hclass : rdclass = dns_rdataclass_in)
    (hfail : mem_get_ok = false ∨
             mutex_init_result ≠ Result.ISC_R_SUCCESS ∨
             refcount_init_result ≠ Result.ISC_R_SUCCESS ∨
             manager_result ≠ Result.ISC_R_SUCCESS) :
    ∃ out : CreateOut,
      ldapdb_create name dbtype rdclass argc true mem_get_ok
          Result.ISC_R_SUCCESS mutex_init_result refcount_init_result
          manager_result ldap_db_handle
        = Except.ok out ∧
      out.result ≠ Result.ISC_R_SUCCESS ∧
      out.dbp = none ∧
      releasedOf out.events = (acquiredOf out.events).reverse ∧
      (mem_get_ok = true → mutex_init_result = Result.ISC_R_SUCCESS →
        refcount_init_result = Result.ISC_R_SUCCESS →
        out.result = manager_result) := by
  subst htype hclass
  by_cases h1 : mem_get_ok = false
  · refine ⟨⟨Result.ISC_R_NOMEMORY, none, []⟩, ?_, by decide, rfl, rfl, ?_⟩
    · simp [ldapdb_create, hargc, h1]
    · intro hmem
      rw [h1] at hmem
      exact absurd hmem (by decide)
  · have h1t : mem_get_ok = true := by
      cases mem_get_ok
      · exact absurd rfl h1
      · rfl
    by_cases h3 : mutex_init_result = Result.ISC_R_SUCCESS
    · by_cases h4 : refcount_init_result = Result.ISC_R_SUCCESS
      · have h5 : manager_result ≠ Result.ISC_R_SUCCESS := by
          rcases hfail with h | h | h | h
          · exact absurd h h1
          · exact absurd h3 h
          · exact absurd h4 h
          · exact h
        refine ⟨⟨manager_result, none,
            [CreateEvent.acquire CreateRes.memblock,
             CreateEvent.acquire CreateRes.origin,
             CreateEvent.acquire CreateRes.lockres] ++ clean_lock_events⟩,
          ?_, h5, rfl, rfl, fun _ _ _ => rfl⟩
        simp [ldapdb_create, hargc, h1t, h3, h4, h5]
      · refine ⟨⟨refcount_init_result, none,
            [CreateEvent.acquire CreateRes.memblock,
             CreateEvent.acquire CreateRes.origin,
             CreateEvent.acquire CreateRes.lockres] ++ clean_lock_events⟩,
          ?_, h4, rfl, rfl, fun _ _ hr => absurd hr h4⟩
        simp [ldapdb_create, hargc, h1t, h3, h4]
    · refine ⟨⟨mutex_init_result, none,
          [CreateEvent.acquire CreateRes.memblock,
           CreateEvent.acquire CreateRes.origin] ++ clean_origin_events⟩,
        ?_, h3, rfl, rfl, fun _ hm _ => absurd hm h3⟩
      simp [ldapdb_create, hargc, h1t, h3]

/-- A sequence of attach/detach calls is valid when no prefix detaches more
references than have been attached (counting the construction reference):
every detach releases a reference actually held. -/
def validPrefixes (ops : List RefOp) : Prop :=
  ∀ n, n < ops.length → countDetach (ops.take n) ≤ countAttach (ops.take n)

theorem countAttach_append (l₁ l₂ : List RefOp) :
    countAttach (l₁ ++ l₂) = countAttach l₁ + countAttach l₂ :=
  List.count_append ..

theorem countDetach_append (l₁ l₂ : List RefOp) :
    countDetach (l₁ ++ l₂) = countDetach l₁ + countDetach l₂ :=
  List.count_append ..

theorem applyRefOp_attach (a b : Nat) :
    applyRefOp ⟨a, b⟩ RefOp.attachOp = ⟨a + 1, b⟩ := rfl

theorem applyRefOp_detach (a b : Nat) :
    applyRefOp ⟨a, b⟩ RefOp.detachOp = ⟨a - 1, if a - 1 = 0 then b + 1 else b⟩ := rfl

/-- Closed form for a run from the freshly constructed state: as long as no
prefix over-detaches and the whole sequence detaches at most one reference
more than it attaches, the count is `1 + attaches - detaches` and destruction
has run exactly when the extra detach has happened. -/
theorem runRefOps_closed_form (ops : List RefOp)
    (hpre : validPrefixes ops)
    (hle : countDetach ops ≤ countAttach ops + 1) :
    runRefOps ⟨1, 0⟩ ops
      = ⟨1 + countAttach ops - countDetach ops,
         if countDetach ops = countAttach ops + 1 then 1 else 0⟩ := by
  induction ops using List.reverseRecOn with
  | nil => rfl
  | append_singleton ops op ih =>
      have hops_pre : validPrefixes ops := by
        intro n hn
        have hlt : n < (ops ++ [op]).length := by
          simp only [List.length_append, List.length_singleton]
          omega
        have := hpre n hlt
        rwa [List.take_append_of_le_length (by omega)] at this
      have hops_le : countDetach ops ≤ countAttach ops := by
        have hlt : ops.length < (ops ++ [op]).length := by
          simp
        have := hpre ops.length hlt
        rwa [List.take_left] at this
      have hrun : runRefOps ⟨1, 0⟩ (ops ++ [op])
          = applyRefOp (runRefOps ⟨1, 0⟩ ops) op := by
        simp [runRefOps]
      have hifz : (if countDetach ops = countAttach ops + 1 then 1 else 0) = 0 := by
        rw [if_neg]
        omega
      cases op with
      | attachOp =>
          have ha : countAttach (ops ++ [RefOp.attachOp]) = countAttach ops + 1 := by
            rw [countAttach_append]
            rfl
          have hd : countDetach (ops ++ [RefOp.attachOp]) = countDetach ops := by
            rw [countDetach_append]
            simp [countDetach]
          rw [hrun, ih hops_pre (by omega), hifz, applyRefOp_attach, ha, hd]
          rw [if_neg (show ¬ countDetach ops = countAttach ops + 1 + 1 by omega)]
          refine congrArg₂ RefState.mk ?_ rfl
          omega
      | detachOp =>
          have ha : countAttach (ops ++ [RefOp.detachOp]) = countAttach ops := by
            rw [countAttach_append]
            simp [countAttach]
          have hd : countDetach (ops ++ [RefOp.detachOp]) = countDetach ops + 1 := by
            rw [countDetach_append]
            rfl
          rw [hrun, ih hops_pre (by omega), hifz, applyRefOp_detach, ha, hd]
          by_cases hz : countDetach ops = countAttach ops
          · rw [if_pos (show 1 + countAttach ops - countDetach ops - 1 = 0 by omega),
               if_pos (show countDetach ops + 1 = countAttach ops + 1 by omega)]
            refine congrArg₂ RefState.mk ?_ ?_ <;> omega
          · rw [if_neg (show ¬ 1 + countAttach ops - countDetach ops - 1 = 0 by omega),
               if_neg (show ¬ countDetach ops + 1 = countAttach ops + 1 by omega)]
            refine congrArg₂ RefState.mk ?_ rfl
            omega

/-- Claim C6: for every balanced attach/detach sequence on a store or node —
one more detach than attach, the extra one releasing the construction
reference, and no prefix detaching references not held — starting from
construction with reference count 1, the destruction routine has run exactly
once when the sequence completes, the final count is zero, and destruction
has not run after any proper prefix (so it runs at the final detach, the one
bringing the count to zero, and never while an earlier detach left the count
positive). -/
theorem refcount_balanced_destroys_once (ops : List RefOp)
    (hpre : validPrefixes ops)
    (hbal : countDetach ops = countAttach ops + 1) :
    (runRefOps ⟨1, 0⟩ ops).destroyCount = 1 ∧
    (runRefOps ⟨1, 0⟩ ops).refs = 0 ∧
    (∀ n, n < ops.length → (runRefOps ⟨1, 0⟩ (ops.take n)).destroyCount = 0) := by
  have hmain := runRefOps_closed_form ops hpre (by omega)
  refine ⟨?_, ?_, ?_⟩
  · rw [hmain]
    simp [hbal]
  · rw [hmain]
    simp only []
    omega
  · intro n hn
    have hpren : validPrefixes (ops.take n) := by
      intro m hm
      have hmn : m ≤ n := by
        have := List.length_take n ops
        omega
      have hlt : m < ops.length := by omega
      have := hpre m hlt
      rwa [List.take_take, min_eq_left hmn]
    have hlen : (ops.take n).length = n := by
      rw [List.length_take]
      omega
    have hle : countDetach (ops.take n) ≤ countAttach (ops.take n) := by
      have := hpre n hn
      exact this
    rw [runRefOps_closed_form (ops.take n) hpren (by omega)]
    simp only []
    rw [if_neg (by omega)]

/-- Claim C6 witness: construction, one extra attach, then two detaches; the
count reaches zero only at the second detach, where destruction runs once,
and no proper prefix has destroyed the object. -/
theorem refcount_balanced_destroys_once_witness :
    validPrefixes [RefOp.attachOp, RefOp.detachOp, RefOp.detachOp] ∧
    countDetach [RefOp.attachOp, RefOp.detachOp, RefOp.detachOp]
      = countAttach [RefOp.attachOp, RefOp.detachOp, RefOp.detachOp] + 1 ∧
    ((runRefOps ⟨1, 0⟩ [RefOp.attachOp, RefOp.detachOp, RefOp.detachOp]).destroyCount = 1 ∧
     (runRefOps ⟨1, 0⟩ [RefOp.attachOp, RefOp.detachOp, RefOp.detachOp]).refs = 0 ∧
     (∀ n, n < [RefOp.attachOp, RefOp.detachOp, RefOp.detachOp].length →
       (runRefOps ⟨1, 0⟩ ([RefOp.attachOp, RefOp.detachOp, RefOp.detachOp].take n)).destroyCount = 0)) :=
  ⟨by
      intro n hn
      have hn3 : n < 3 := by simpa using hn
      interval_cases n <;> decide,
   by decide,
   refcount_balanced_destroys_once [RefOp.attachOp, RefOp.detachOp, RefOp.detachOp]
     (by
       intro n hn
       have hn3 : n < 3 := by simpa using hn
       interval_cases n <;> decide)
     (by decide)⟩

end LdapDriver
